import Mathlib

/-!
Verification of the DNS header codec in `src/src/main.rs`.

The Rust program decodes the fixed 12-byte DNS message header from a UDP
datagram, flips the `qr` flag to `Reply`, and re-encodes it.  We embed the
codec shallowly: bytes are `Nat` values (< 256 for genuine `u8` inputs),
`u16` arithmetic is `Nat` arithmetic (no operation below can overflow 16
bits, see `flagsWord_lt`), and every Rust panic site (a failed
`Result::unwrap`, an out-of-bounds slice index, a firing `debug_assert!`)
is modelled as `none` of an `Option`.  The Rust enumerations' `TryFrom<u8>`
implementations return `Err(())`; since the error payload is the unit
value, `Err(())` is likewise modelled as `none`.
-/

set_option maxRecDepth 10000

namespace DNS

/-- `enum OpCode` (main.rs lines 16-20) with discriminants 0, 1, 2. -/
inductive OpCode : Type
  | Query
  | IQuery
  | Status
  deriving DecidableEq, Fintype

/-- `impl TryFrom<u8> for OpCode` (main.rs lines 22-33); `Err(())` is `none`. -/
def OpCode.tryFrom (value : Nat) : Option OpCode :=
  match value with
  | 0 => some OpCode.Query
  | 1 => some OpCode.IQuery
  | 2 => some OpCode.Status
  | _ => none

/-- The discriminant of `OpCode`, used by `op_code.clone() as u16` in `to_bytes`. -/
def OpCode.toNat : OpCode → Nat
  | OpCode.Query => 0
  | OpCode.IQuery => 1
  | OpCode.Status => 2

/-- `enum ResponseCode` (main.rs lines 36-41) with discriminants 0-3. -/
inductive ResponseCode : Type
  | NoError
  | FormError
  | ServFail
  | NxDomain
  deriving DecidableEq, Fintype

/-- `impl TryFrom<u8> for ResponseCode` (main.rs lines 43-55); `Err(())` is `none`. -/
def ResponseCode.tryFrom (value : Nat) : Option ResponseCode :=
  match value with
  | 0 => some ResponseCode.NoError
  | 1 => some ResponseCode.FormError
  | 2 => some ResponseCode.ServFail
  | 3 => some ResponseCode.NxDomain
  | _ => none

/-- The discriminant of `ResponseCode`, used by `response_code.clone() as u16`. -/
def ResponseCode.toNat : ResponseCode → Nat
  | ResponseCode.NoError => 0
  | ResponseCode.FormError => 1
  | ResponseCode.ServFail => 2
  | ResponseCode.NxDomain => 3

/-- `enum QueryOrReply` (main.rs lines 58-61) with discriminants 0, 1. -/
inductive QueryOrReply : Type
  | Query
  | Reply
  deriving DecidableEq, Fintype

/-- `impl TryFrom<u8> for QueryOrReply` (main.rs lines 63-73); `Err(())` is `none`. -/
def QueryOrReply.tryFrom (value : Nat) : Option QueryOrReply :=
  match value with
  | 0 => some QueryOrReply.Query
  | 1 => some QueryOrReply.Reply
  | _ => none

/-- The discriminant of `QueryOrReply`, used by `qr.clone() as u16`. -/
def QueryOrReply.toNat : QueryOrReply → Nat
  | QueryOrReply.Query => 0
  | QueryOrReply.Reply => 1

/-- `struct HeaderFlags` (main.rs lines 89-98). -/
structure HeaderFlags : Type where
  qr : QueryOrReply
  op_code : OpCode
  authoritative_answer : Bool
  truncation : Bool
  recursion_desired : Bool
  recursion_available : Bool
  response_code : ResponseCode
  deriving DecidableEq

/-- `struct Header` (main.rs lines 75-87); the `u16` fields are `Nat`s that are
below 65536 whenever the header was produced by decoding genuine bytes. -/
structure Header : Type where
  id : Nat
  header_flags : HeaderFlags
  question_count : Nat
  answer_record_count : Nat
  authority_record_count : Nat
  additional_record_count : Nat
  deriving DecidableEq

/-- `u16::from_be_bytes([hi, lo])` applied to two byte values. -/
def u16_from_be (hi lo : Nat) : Nat := hi * 256 + lo

/-- `u16::to_be_bytes` of a 16-bit value, as the list `[high byte, low byte]`. -/
def u16_to_be (v : Nat) : List Nat := [v / 256 % 256, v % 256]

/-- The body of `Header::extract_flags` (main.rs lines 101-132) on the two
flag bytes `bytes[2]` and `bytes[3]`.  The three `unwrap` calls on lines
119-121 panic when the `TryFrom` conversion returns `Err(())`; a panic is
modelled as `none`.  The read of the reserved bits on line 116
(`let _ = (flags2 & 0b0111_0000) >> 4;`) is discarded by the source and
hence not modelled. -/
def extractFlagsPair (flags1 flags2 : Nat) : Option HeaderFlags :=
  let qr := (flags1 >>> 7) &&& 0b1
  let op_code := (flags1 &&& 0b01111000) >>> 3
  let authoritative_answer := (flags1 &&& 0b00000100) != 0
  let truncation := (flags1 &&& 0b00000010) != 0
  let recursion_desired := (flags1 &&& 0b00000001) != 0
  let recursion_available := (flags2 &&& 0b10000000) != 0
  let response_code := flags2 &&& 0b00001111
  match OpCode.tryFrom op_code, ResponseCode.tryFrom response_code,
        QueryOrReply.tryFrom qr with
  | some op, some rc, some q =>
      some ⟨q, op, authoritative_answer, truncation, recursion_desired,
            recursion_available, rc⟩
  | _, _, _ => none

/-- `Header::extract_flags` (main.rs lines 101-132): reads `bytes[2]` and
`bytes[3]` (an out-of-bounds index panics, modelled as `none`) and decodes
them via `extractFlagsPair`. -/
def Header.extract_flags (bytes : List Nat) : Option HeaderFlags := do
  let flags1 ← bytes[2]?
  let flags2 ← bytes[3]?
  extractFlagsPair flags1 flags2

/-- `Header::new` (main.rs lines 134-150) under release semantics: the
`debug_assert!(bytes.len() == 12)` on line 135 is compiled out, so the
function reads `bytes[0]` through `bytes[11]` (an out-of-bounds index
panics, modelled as `none`) and an over-long slice is accepted. -/
def Header.new (bytes : List Nat) : Option Header := do
  let b0 ← bytes[0]?
  let b1 ← bytes[1]?
  let header_flags ← Header.extract_flags bytes
  let b4 ← bytes[4]?
  let b5 ← bytes[5]?
  let b6 ← bytes[6]?
  let b7 ← bytes[7]?
  let b8 ← bytes[8]?
  let b9 ← bytes[9]?
  let b10 ← bytes[10]?
  let b11 ← bytes[11]?
  some ⟨u16_from_be b0 b1, header_flags, u16_from_be b4 b5, u16_from_be b6 b7,
        u16_from_be b8 b9, u16_from_be b10 b11⟩

/-- `Header::new` under debug semantics: the `debug_assert!(bytes.len() == 12)`
on line 135 is active and aborts (modelled as `none`) on any slice whose
length is not exactly 12. -/
def Header.newDebug (bytes : List Nat) : Option Header :=
  if bytes.length = 12 then Header.new bytes else none

/-- The 16-bit flags word assembled by `Header::to_bytes` (main.rs lines
159-167): `qr` at bit 15, `op_code` at bits 14-11, the booleans at bits
10-7, zero at the reserved bits 6-4, `response_code` at bits 3-0.  Every
component is below 65536 and the components occupy disjoint bits, so the
`u16` accumulation never wraps (see `flagsWord_lt`). -/
def flagsWord (f : HeaderFlags) : Nat :=
  (f.qr.toNat <<< 15) |||
  (f.op_code.toNat <<< 11) |||
  (f.authoritative_answer.toNat <<< 10) |||
  (f.truncation.toNat <<< 9) |||
  (f.recursion_desired.toNat <<< 8) |||
  (f.recursion_available.toNat <<< 7) |||
  ((0 &&& 0x7) <<< 4) |||
  (f.response_code.toNat &&& 0xF)

/-- `Header::to_bytes` (main.rs lines 152-177): id, flags word, and the four
counts, each written in big-endian order. -/
def Header.to_bytes (h : Header) : List Nat :=
  u16_to_be h.id ++ u16_to_be (flagsWord h.header_flags) ++
  u16_to_be h.question_count ++ u16_to_be h.answer_record_count ++
  u16_to_be h.authority_record_count ++ u16_to_be h.additional_record_count

/-- The per-datagram transform of `main` (main.rs lines 184-198): split off the
first 12 bytes (`split_at(12)` panics, i.e. `none`, when fewer are present),
decode them, overwrite `qr` with `Reply`, and re-encode. -/
def serverTransform (bytes : List Nat) : Option (List Nat) :=
  if bytes.length < 12 then none
  else
    (Header.new (bytes.take 12)).map (fun h =>
      Header.to_bytes
        { h with header_flags := { h.header_flags with qr := QueryOrReply.Reply } })

/-! ### Normalization lemmas -/

/-- `Header::new` on a buffer of at least 12 bytes, written without the
intermediate index reads. -/
theorem new_cons (b0 b1 b2 b3 b4 b5 b6 b7 b8 b9 b10 b11 : Nat) (rest : List Nat) :
    Header.new (b0 :: b1 :: b2 :: b3 :: b4 :: b5 :: b6 :: b7 :: b8 :: b9 :: b10 :: b11 :: rest) =
      (extractFlagsPair b2 b3).map (fun f =>
        ⟨u16_from_be b0 b1, f, u16_from_be b4 b5, u16_from_be b6 b7,
         u16_from_be b8 b9, u16_from_be b10 b11⟩) := by
  cases hfp : extractFlagsPair b2 b3 <;>
    simp [Header.new, Header.extract_flags, hfp]

/-- `Header::to_bytes` written as a flat 12-element list. -/
theorem to_bytes_flat (i : Nat) (f : HeaderFlags) (qc ac auc adc : Nat) :
    Header.to_bytes ⟨i, f, qc, ac, auc, adc⟩ =
      [i / 256 % 256, i % 256,
       flagsWord f / 256 % 256, flagsWord f % 256,
       qc / 256 % 256, qc % 256, ac / 256 % 256, ac % 256,
       auc / 256 % 256, auc % 256, adc / 256 % 256, adc % 256] := rfl

/-! ### Bit-level facts, established by exhaustive evaluation -/

/-- The flags word never reaches 16 bits: the `u16` accumulation in
`Header::to_bytes` cannot wrap. -/
theorem flagsWord_lt (f : HeaderFlags) : flagsWord f < 65536 := by
  obtain ⟨q, op, aa, tc, rd, ra, rc⟩ := f
  revert q op aa tc rd ra rc; decide

/-- Decoding the two bytes of an encoded flags word recovers the flags:
the structure-first round trip at the flags level. -/
theorem extractFlagsPair_flagsWord (f : HeaderFlags) :
    extractFlagsPair (flagsWord f / 256 % 256) (flagsWord f % 256) = some f := by
  obtain ⟨q, op, aa, tc, rd, ra, rc⟩ := f
  revert q op aa tc rd ra rc; decide

/-- Byte 3 of every encoded header has zero in the reserved bits 6-4. -/
theorem flagsWord_reserved (f : HeaderFlags) :
    flagsWord f % 256 &&& 0b01110000 = 0 := by
  obtain ⟨q, op, aa, tc, rd, ra, rc⟩ := f
  revert q op aa tc rd ra rc; decide

/-- A byte whose reserved bits 6-4 are zero is exactly its bit 7 plus its low
nibble. -/
theorem byte3_decomp :
    ∀ b3, b3 < 256 → b3 &&& 0b01110000 = 0 →
      (b3 >>> 7) * 128 + (b3 &&& 0b00001111) = b3 := by
  decide

/-- The two subfields of byte 3 that `extract_flags` reads, on the byte with
the reserved bits cleared, on the byte with bit 7 flipped, and bounds used to
canonicalize an arbitrary byte 3. -/
theorem byte3_masks :
    ∀ b3, b3 < 256 →
      ((b3 >>> 7) * 128 + (b3 &&& 15)) &&& 128 = b3 &&& 128 ∧
      ((b3 >>> 7) * 128 + (b3 &&& 15)) &&& 15 = b3 &&& 15 ∧
      b3 >>> 7 < 2 ∧ b3 &&& 15 < 16 ∧
      (b3 ^^^ 128) &&& 128 = (((b3 >>> 7) * 128 + (b3 &&& 15)) ^^^ 128) &&& 128 ∧
      (b3 ^^^ 128) &&& 15 = b3 &&& 15 ∧
      b3 &&& 128 = b3 &&& 143 &&& 128 ∧ b3 &&& 15 = b3 &&& 143 &&& 15 ∧
      (((b3 >>> 7) * 128 + (b3 &&& 15)) ^^^ 128) &&& 15 = b3 &&& 15 := by
  decide

/-- `extract_flags` reads byte 3 only through the masks `0b10000000` and
`0b00001111`: two bytes that agree on those masks decode identically. -/
theorem extractFlagsPair_b3_congr (b2 b3 b3' : Nat)
    (h128 : b3 &&& 128 = b3' &&& 128) (h15 : b3 &&& 15 = b3' &&& 15) :
    extractFlagsPair b2 b3 = extractFlagsPair b2 b3' := by
  unfold extractFlagsPair
  rw [h128, h15]

/-- Boolean form of the byte-level round trip (C1 at the flags bytes): if the
op-code subfield of `b2` is defined, decoding then encoding the two flag
bytes reproduces them.  The response-code and reserved-bit conditions are
supplied structurally by the callers, which pass `b3 = ra * 128 + rc` with
`ra < 2` and `rc < 4`. -/
def roundtripCheck (b2 b3 : Nat) : Bool :=
  decide ((b2 &&& 0b01111000) >>> 3 < 3 →
    (extractFlagsPair b2 b3).map
        (fun f => (flagsWord f / 256 % 256, flagsWord f % 256)) =
      some (b2, b3))

/-- Exhaustive boolean check over an initial segment of the naturals,
evaluated by an iterative list fold (kept shallow for the kernel). -/
def natAll (n : Nat) (p : Nat → Bool) : Bool := (List.range n).all p

theorem natAll_spec {n : Nat} {p : Nat → Bool} (h : natAll n p = true)
    (i : Nat) (hi : i < n) : p i = true := by
  rw [natAll, List.all_eq_true] at h
  exact h i (List.mem_range.mpr hi)

/-- A check over `a * b` cases, nested to keep each evaluated list short. -/
theorem natAll_mul_spec {a b : Nat} {p : Nat → Bool}
    (h : natAll a (fun i => natAll b (fun j => p (i * b + j))) = true)
    {n : Nat} (hn : n < a * b) : p n = true := by
  have hb : 0 < b := by
    rcases Nat.eq_zero_or_pos b with hb | hb
    · subst hb; simp at hn
    · exact hb
  have h1 : natAll b (fun j => p (n / b * b + j)) = true :=
    natAll_spec h (n / b) ((Nat.div_lt_iff_lt_mul hb).mpr hn)
  have h2 : p (n / b * b + n % b) = true := natAll_spec h1 (n % b) (Nat.mod_lt _ hb)
  rwa [Nat.div_add_mod'] at h2

/-- `roundtripCheck` with its two byte arguments unpacked from a single
number below 2048: the low 8 bits are byte 2, bit 8 is the
`recursion_available` bit of byte 3, bits 9-10 are its response code. -/
def rtPacked (n : Nat) : Bool :=
  roundtripCheck (n % 256) (n / 256 % 2 * 128 + n / 512)

theorem roundtripCheck_packed :
    natAll 256 (fun i => natAll 8 (fun j => rtPacked (i * 8 + j))) = true := by
  rfl

/-- Encoding the flags decoded from two bytes reproduces the bytes, provided
the op-code subfield is in {0,1,2}, the response-code subfield is in
{0,1,2,3}, and the reserved bits 6-4 of byte 3 are zero. -/
theorem flags_bytes_roundtrip (b2 b3 : Nat) (hb2 : b2 < 256) (hb3 : b3 < 256)
    (hop : (b2 &&& 0b01111000) >>> 3 < 3) (hrc : b3 &&& 0b00001111 < 4)
    (hres : b3 &&& 0b01110000 = 0) :
    (extractFlagsPair b2 b3).map
        (fun f => (flagsWord f / 256 % 256, flagsWord f % 256)) =
      some (b2, b3) := by
  obtain ⟨-, -, hra, -, -, -, -, -⟩ := byte3_masks b3 hb3
  have h : rtPacked ((b3 &&& 15) * 512 + (b3 >>> 7) * 256 + b2) = true :=
    natAll_mul_spec roundtripCheck_packed
      (show (b3 &&& 15) * 512 + (b3 >>> 7) * 256 + b2 < 256 * 8 by omega)
  rw [rtPacked,
      show ((b3 &&& 15) * 512 + (b3 >>> 7) * 256 + b2) % 256 = b2 by omega,
      show ((b3 &&& 15) * 512 + (b3 >>> 7) * 256 + b2) / 256 % 2 = b3 >>> 7 by omega,
      show ((b3 &&& 15) * 512 + (b3 >>> 7) * 256 + b2) / 512 = b3 &&& 15 by omega,
      byte3_decomp b3 hb3 hres] at h
  exact of_decide_eq_true h hop

/-! ### Single-bit flips of the four boolean flags (claim C9) -/

/-- Negate only the `authoritative_answer` field. -/
def flipAA (f : HeaderFlags) : HeaderFlags :=
  { f with authoritative_answer := !f.authoritative_answer }

/-- Negate only the `truncation` field. -/
def flipTC (f : HeaderFlags) : HeaderFlags :=
  { f with truncation := !f.truncation }

/-- Negate only the `recursion_desired` field. -/
def flipRD (f : HeaderFlags) : HeaderFlags :=
  { f with recursion_desired := !f.recursion_desired }

/-- Negate only the `recursion_available` field. -/
def flipRA (f : HeaderFlags) : HeaderFlags :=
  { f with recursion_available := !f.recursion_available }

/-- The subfields of byte 2 that `extract_flags` reads, after each of the
three single-bit flips of the boolean flag bits 2, 1, 0: the flipped bit
toggles its own subfield and leaves the others unchanged. -/
theorem byte2_masks :
    ∀ b2, b2 < 256 →
      ((b2 ^^^ 4) >>> 7) &&& 1 = (b2 >>> 7) &&& 1 ∧
      ((b2 ^^^ 4) &&& 120) >>> 3 = (b2 &&& 120) >>> 3 ∧
      (((b2 ^^^ 4) &&& 4) != 0) = !((b2 &&& 4) != 0) ∧
      (b2 ^^^ 4) &&& 2 = b2 &&& 2 ∧ (b2 ^^^ 4) &&& 1 = b2 &&& 1 ∧
      ((b2 ^^^ 2) >>> 7) &&& 1 = (b2 >>> 7) &&& 1 ∧
      ((b2 ^^^ 2) &&& 120) >>> 3 = (b2 &&& 120) >>> 3 ∧
      (b2 ^^^ 2) &&& 4 = b2 &&& 4 ∧
      (((b2 ^^^ 2) &&& 2) != 0) = !((b2 &&& 2) != 0) ∧
      (b2 ^^^ 2) &&& 1 = b2 &&& 1 ∧
      ((b2 ^^^ 1) >>> 7) &&& 1 = (b2 >>> 7) &&& 1 ∧
      ((b2 ^^^ 1) &&& 120) >>> 3 = (b2 &&& 120) >>> 3 ∧
      (b2 ^^^ 1) &&& 4 = b2 &&& 4 ∧ (b2 ^^^ 1) &&& 2 = b2 &&& 2 ∧
      (((b2 ^^^ 1) &&& 1) != 0) = !((b2 &&& 1) != 0) := by
  decide

/-- The subfields of byte 3 after flipping its bit 7: the
`recursion_available` bit toggles and the response code is unchanged. -/
theorem byte3_flip :
    ∀ b3, b3 < 256 →
      (((b3 ^^^ 128) &&& 128) != 0) = !((b3 &&& 128) != 0) ∧
      (b3 ^^^ 128) &&& 15 = b3 &&& 15 := by
  decide

/-- Flag isolation at the level of the two flag bytes: toggling one boolean
flag bit of the input toggles exactly the corresponding decoded field (and
maps a decode failure to a decode failure). -/
theorem flags_bytes_flip (b2 b3 : Nat) (hb2 : b2 < 256) (hb3 : b3 < 256) :
    extractFlagsPair (b2 ^^^ 4) b3 = (extractFlagsPair b2 b3).map flipAA ∧
    extractFlagsPair (b2 ^^^ 2) b3 = (extractFlagsPair b2 b3).map flipTC ∧
    extractFlagsPair (b2 ^^^ 1) b3 = (extractFlagsPair b2 b3).map flipRD ∧
    extractFlagsPair b2 (b3 ^^^ 128) = (extractFlagsPair b2 b3).map flipRA := by
  obtain ⟨e1, e2, e3, e4, e5, e6, e7, e8, e9, e10, e11, e12, e13, e14, e15⟩ :=
    byte2_masks b2 hb2
  obtain ⟨f1, f2⟩ := byte3_flip b3 hb3
  refine ⟨?_, ?_, ?_, ?_⟩
  · simp only [extractFlagsPair]
    rw [e1, e2, e3, e4, e5]
    cases OpCode.tryFrom ((b2 &&& 120) >>> 3) <;>
      cases ResponseCode.tryFrom (b3 &&& 15) <;>
        cases QueryOrReply.tryFrom ((b2 >>> 7) &&& 1) <;> rfl
  · simp only [extractFlagsPair]
    rw [e6, e7, e8, e9, e10]
    cases OpCode.tryFrom ((b2 &&& 120) >>> 3) <;>
      cases ResponseCode.tryFrom (b3 &&& 15) <;>
        cases QueryOrReply.tryFrom ((b2 >>> 7) &&& 1) <;> rfl
  · simp only [extractFlagsPair]
    rw [e11, e12, e13, e14, e15]
    cases OpCode.tryFrom ((b2 &&& 120) >>> 3) <;>
      cases ResponseCode.tryFrom (b3 &&& 15) <;>
        cases QueryOrReply.tryFrom ((b2 >>> 7) &&& 1) <;> rfl
  · simp only [extractFlagsPair]
    rw [f1, f2]
    cases OpCode.tryFrom ((b2 &&& 120) >>> 3) <;>
      cases ResponseCode.tryFrom (b3 &&& 15) <;>
        cases QueryOrReply.tryFrom ((b2 >>> 7) &&& 1) <;> rfl

/-! ### Structure-first round trip -/

/-- Decoding the encoding of any header whose numeric fields fit in 16 bits
gives back the header (the flags may be any combination of enumeration
members). -/
theorem new_to_bytes (i : Nat) (f : HeaderFlags) (qc ac auc adc : Nat)
    (hi : i < 65536) (hqc : qc < 65536) (hac : ac < 65536)
    (hauc : auc < 65536) (hadc : adc < 65536) :
    Header.new (Header.to_bytes ⟨i, f, qc, ac, auc, adc⟩) =
      some ⟨i, f, qc, ac, auc, adc⟩ := by
  have e : ∀ v : Nat, v < 65536 → u16_from_be (v / 256 % 256) (v % 256) = v := by
    intro v hv
    simp only [u16_from_be]
    omega
  rw [to_bytes_flat, new_cons, extractFlagsPair_flagsWord,
      e i hi, e qc hqc, e ac hac, e auc hauc, e adc hadc]
  rfl

/-- `serverTransform` on a buffer of exactly 12 bytes: the length test passes
and the whole buffer is decoded. -/
theorem serverTransform_twelve (b0 b1 b2 b3 b4 b5 b6 b7 b8 b9 b10 b11 : Nat) :
    serverTransform [b0, b1, b2, b3, b4, b5, b6, b7, b8, b9, b10, b11] =
      (Header.new [b0, b1, b2, b3, b4, b5, b6, b7, b8, b9, b10, b11]).map (fun h =>
        Header.to_bytes
          { h with header_flags :=
              { h.header_flags with qr := QueryOrReply.Reply } }) := rfl

/-! ### The claims -/

/-- Claim C1: for every 12-byte buffer whose 4-bit op-code subfield (bits 6-3
of byte 2) is in {0,1,2}, whose response-code subfield (low nibble of byte 3)
is in {0,1,2,3}, and whose reserved bits 6-4 of byte 3 are 0, re-encoding the
decoded header reproduces the input exactly. -/
theorem claim_C1 (b0 b1 b2 b3 b4 b5 b6 b7 b8 b9 b10 b11 : Nat)
    (h0 : b0 < 256) (h1 : b1 < 256) (h2 : b2 < 256) (h3 : b3 < 256)
    (h4 : b4 < 256) (h5 : b5 < 256) (h6 : b6 < 256) (h7 : b7 < 256)
    (h8 : b8 < 256) (h9 : b9 < 256) (h10 : b10 < 256) (h11 : b11 < 256)
    (hop : (b2 &&& 0b01111000) >>> 3 < 3) (hrc : b3 &&& 0b00001111 < 4)
    (hres : b3 &&& 0b01110000 = 0) :
    (Header.new [b0, b1, b2, b3, b4, b5, b6, b7, b8, b9, b10, b11]).map
        Header.to_bytes =
      some [b0, b1, b2, b3, b4, b5, b6, b7, b8, b9, b10, b11] := by
  obtain ⟨f, hf, henc⟩ := Option.map_eq_some'.mp
    (flags_bytes_roundtrip b2 b3 h2 h3 hop hrc hres)
  have eb2 : flagsWord f / 256 % 256 = b2 := congrArg Prod.fst henc
  have eb3 : flagsWord f % 256 = b3 := congrArg Prod.snd henc
  rw [new_cons, hf]
  simp only [Option.map_some']
  rw [to_bytes_flat, eb2, eb3]
  simp only [u16_from_be, Option.some.injEq, List.cons.injEq, and_true, true_and]
  omega

/-- Witness for C1 at a concrete buffer. -/
theorem claim_C1_witness :
    (Header.new [0, 7, 0x85, 0x82, 0, 1, 0, 2, 0, 3, 0, 4]).map Header.to_bytes =
      some [0, 7, 0x85, 0x82, 0, 1, 0, 2, 0, 3, 0, 4] :=
  claim_C1 0 7 0x85 0x82 0 1 0 2 0 3 0 4
    (by decide) (by decide) (by decide) (by decide) (by decide) (by decide)
    (by decide) (by decide) (by decide) (by decide) (by decide) (by decide)
    (by decide) (by decide) (by decide)

/-- Claim C2: for every header whose numeric fields fit in 16 bits (and whose
enumeration fields are, by construction, valid members), decoding the
encoding gives back the same header. -/
theorem claim_C2 (h : Header) (hid : h.id < 65536)
    (hqc : h.question_count < 65536) (hac : h.answer_record_count < 65536)
    (hauc : h.authority_record_count < 65536)
    (hadc : h.additional_record_count < 65536) :
    Header.new (Header.to_bytes h) = some h := by
  obtain ⟨i, f, qc, ac, auc, adc⟩ := h
  exact new_to_bytes i f qc ac auc adc hid hqc hac hauc hadc

/-- Witness for C2 at a concrete header. -/
theorem claim_C2_witness :
    Header.new (Header.to_bytes
        ⟨1234, ⟨QueryOrReply.Reply, OpCode.Status, true, false, true, true,
                ResponseCode.NxDomain⟩, 1, 2, 3, 4⟩) =
      some ⟨1234, ⟨QueryOrReply.Reply, OpCode.Status, true, false, true, true,
                   ResponseCode.NxDomain⟩, 1, 2, 3, 4⟩ :=
  claim_C2 ⟨1234, ⟨QueryOrReply.Reply, OpCode.Status, true, false, true, true,
                   ResponseCode.NxDomain⟩, 1, 2, 3, 4⟩
    (by decide) (by decide) (by decide) (by decide) (by decide)

/-- Claim C3 (code bug): the claim says decoding never panics and returns an
explicit error value whose kind identifies the failure; in the source,
`Header::extract_flags` calls `Result::unwrap` on the `TryFrom` conversions
(whose error type is the unit type `()`), so an op-code outside {0,1,2} or a
response-code outside {0,1,2,3} makes decoding panic — modelled as `none`,
with no error value and no kind.  This theorem exhibits the panic on two
12-byte inputs: byte 2 = 0xF0 (op-code 14) and byte 3 = 0x0F
(response-code 15). -/
theorem claim_C3 :
    Header.new [0, 0, 0xF0, 0, 0, 0, 0, 0, 0, 0, 0, 0] = none ∧
    Header.new [0, 0, 0, 0x0F, 0, 0, 0, 0, 0, 0, 0, 0] = none := ⟨rfl, rfl⟩

/-- Claim C4 (code bug): the claim says a non-12-byte input fails with a
`BadLength` error.  The source has no length error: `Header::new` only has a
`debug_assert!(bytes.len() == 12)`.  On a 13-byte input a release build
decodes the first 12 bytes successfully while a debug build aborts; on an
11-byte input both builds panic on an out-of-bounds index.  No `BadLength`
value exists.  The second half of the claim (a 12-byte input never fails due
to length) does hold, as every 12-byte decode below that fails does so only
through the enumerated subfields. -/
theorem claim_C4 :
    Header.new (List.replicate 13 0) =
      some ⟨0, ⟨QueryOrReply.Query, OpCode.Query, false, false, false, false,
                ResponseCode.NoError⟩, 0, 0, 0, 0⟩ ∧
    Header.newDebug (List.replicate 13 0) = none ∧
    Header.new (List.replicate 11 0) = none ∧
    Header.newDebug (List.replicate 11 0) = none ∧
    (∀ b0 b1 b2 b3 b4 b5 b6 b7 b8 b9 b10 b11 : Nat,
      Header.newDebug [b0, b1, b2, b3, b4, b5, b6, b7, b8, b9, b10, b11] =
        Header.new [b0, b1, b2, b3, b4, b5, b6, b7, b8, b9, b10, b11]) :=
  ⟨rfl, rfl, rfl, rfl, fun _ _ _ _ _ _ _ _ _ _ _ _ => rfl⟩

/-- Claim C5 (code bug): the claim says a 12-byte buffer with byte 2 =
0b11110000 fails decode with an `InvalidOpCode` error and one with low nibble
0b1111 in byte 3 fails with an `InvalidResponseCode` error.  Decoding does
fail on exactly these inputs, but by a `Result::unwrap` panic on a unit
error (modelled as `none`); no `InvalidOpCode`/`InvalidResponseCode` values
exist in the source.  The theorem evaluates the decoder at such inputs. -/
theorem claim_C5 :
    (∀ b0 b1 b3 b4 b5 b6 b7 b8 b9 b10 b11 : Nat,
      Header.new [b0, b1, 0b11110000, b3, b4, b5, b6, b7, b8, b9, b10, b11] =
        none) ∧
    (∀ b0 b1 b4 b5 b6 b7 b8 b9 b10 b11 : Nat,
      Header.new [b0, b1, 0b00000101, 0b00001111, b4, b5, b6, b7, b8, b9, b10, b11] =
        none) ∧
    Header.new [0xAB, 0xCD, 0b11110000, 0x77, 0, 1, 0, 0, 0, 0, 0, 0] = none :=
  ⟨fun _ _ _ _ _ _ _ _ _ _ _ => by rw [new_cons]; rfl,
   fun _ _ _ _ _ _ _ _ _ _ => by rw [new_cons]; rfl,
   rfl⟩

/-- Claim C6: the enumerated-field decoders are exactly the listed mappings
and reject everything else, and the to-integer direction is a total function
inverting them. -/
theorem claim_C6 :
    (OpCode.tryFrom 0 = some OpCode.Query ∧
      OpCode.tryFrom 1 = some OpCode.IQuery ∧
      OpCode.tryFrom 2 = some OpCode.Status ∧
      ∀ v, 3 ≤ v → v < 16 → OpCode.tryFrom v = none) ∧
    (ResponseCode.tryFrom 0 = some ResponseCode.NoError ∧
      ResponseCode.tryFrom 1 = some ResponseCode.FormError ∧
      ResponseCode.tryFrom 2 = some ResponseCode.ServFail ∧
      ResponseCode.tryFrom 3 = some ResponseCode.NxDomain ∧
      ∀ v, 4 ≤ v → v < 16 → ResponseCode.tryFrom v = none) ∧
    (QueryOrReply.tryFrom 0 = some QueryOrReply.Query ∧
      QueryOrReply.tryFrom 1 = some QueryOrReply.Reply ∧
      ∀ v, 2 ≤ v → v < 16 → QueryOrReply.tryFrom v = none) ∧
    (∀ c : OpCode, OpCode.tryFrom c.toNat = some c) ∧
    (∀ c : ResponseCode, ResponseCode.tryFrom c.toNat = some c) ∧
    (∀ c : QueryOrReply, QueryOrReply.tryFrom c.toNat = some c) := by
  refine ⟨⟨rfl, rfl, rfl, ?_⟩, ⟨rfl, rfl, rfl, rfl, ?_⟩, ⟨rfl, rfl, ?_⟩,
    ?_, ?_, ?_⟩ <;> decide

/-- Witness for C6: the rejecting branches at concrete out-of-range values. -/
theorem claim_C6_witness :
    OpCode.tryFrom 9 = none ∧ ResponseCode.tryFrom 12 = none ∧
    QueryOrReply.tryFrom 5 = none :=
  ⟨claim_C6.1.2.2.2 9 (by decide) (by decide),
   claim_C6.2.1.2.2.2.2 12 (by decide) (by decide),
   claim_C6.2.2.1.2.2 5 (by decide) (by decide)⟩

/-- Claim C7: the concrete input `04 D2 01 00 00 01 00 00 00 00 00 00`
decodes to id 1234, qr Query, op-code Query, recursion_desired true, all
other booleans false, response-code NoError, question count 1, other counts
0; and the server's qr := Reply rewrite re-encodes it to
`04 D2 81 00 00 01 00 00 00 00 00 00`. -/
theorem claim_C7 :
    Header.new [0x04, 0xD2, 0x01, 0x00, 0x00, 0x01, 0, 0, 0, 0, 0, 0] =
      some ⟨1234, ⟨QueryOrReply.Query, OpCode.Query, false, false, true, false,
                   ResponseCode.NoError⟩, 1, 0, 0, 0⟩ ∧
    serverTransform [0x04, 0xD2, 0x01, 0x00, 0x00, 0x01, 0, 0, 0, 0, 0, 0] =
      some [0x04, 0xD2, 0x81, 0x00, 0x00, 0x01, 0, 0, 0, 0, 0, 0] := ⟨rfl, rfl⟩

/-- Claim C8: the 3-bit reserved region is asymmetric: encoding always emits
0 in bits 6-4 of byte 3 whatever the header, and decoding ignores those bits
of the input: two 12-byte inputs that differ only there decode identically. -/
theorem claim_C8 :
    (∀ h : Header, (Header.to_bytes h).getD 3 0 &&& 0b01110000 = 0) ∧
    (∀ b0 b1 b2 b3 b3' b4 b5 b6 b7 b8 b9 b10 b11 : Nat, b3 < 256 → b3' < 256 →
      b3 &&& 0b10001111 = b3' &&& 0b10001111 →
      Header.new [b0, b1, b2, b3, b4, b5, b6, b7, b8, b9, b10, b11] =
        Header.new [b0, b1, b2, b3', b4, b5, b6, b7, b8, b9, b10, b11]) := by
  constructor
  · intro h
    obtain ⟨i, f, qc, ac, auc, adc⟩ := h
    rw [to_bytes_flat]
    show flagsWord f % 256 &&& 0b01110000 = 0
    exact flagsWord_reserved f
  · intro b0 b1 b2 b3 b3' b4 b5 b6 b7 b8 b9 b10 b11 hb3 hb3' hmask
    obtain ⟨-, -, -, -, -, -, n128, n15, -⟩ := byte3_masks b3 hb3
    obtain ⟨-, -, -, -, -, -, n128', n15', -⟩ := byte3_masks b3' hb3'
    rw [new_cons, new_cons,
        extractFlagsPair_b3_congr b2 b3 b3'
          (by rw [n128, hmask, ← n128']) (by rw [n15, hmask, ← n15'])]

/-- Witness for C8 (second part) at a concrete pair of buffers differing only
in the reserved bits of byte 3. -/
theorem claim_C8_witness :
    Header.new [1, 2, 3, 0x75, 0, 0, 0, 0, 0, 0, 0, 5] =
      Header.new [1, 2, 3, 0x05, 0, 0, 0, 0, 0, 0, 0, 5] :=
  claim_C8.2 1 2 3 0x75 0x05 0 0 0 0 0 0 0 5 (by decide) (by decide) (by decide)

/-- Claim C9: for every 12-byte buffer that decodes successfully, flipping
any single boolean flag bit of the input (bit 2, 1 or 0 of byte 2, or bit 7
of byte 3) and re-decoding changes exactly the corresponding boolean field,
leaving the id, the other flag fields and all four counts unchanged. -/
theorem claim_C9 (b0 b1 b2 b3 b4 b5 b6 b7 b8 b9 b10 b11 : Nat)
    (hb2 : b2 < 256) (hb3 : b3 < 256) (h : Header)
    (hdec : Header.new [b0, b1, b2, b3, b4, b5, b6, b7, b8, b9, b10, b11] =
      some h) :
    Header.new [b0, b1, b2 ^^^ 0b00000100, b3, b4, b5, b6, b7, b8, b9, b10, b11] =
      some { h with header_flags := { h.header_flags with
        authoritative_answer := !h.header_flags.authoritative_answer } } ∧
    Header.new [b0, b1, b2 ^^^ 0b00000010, b3, b4, b5, b6, b7, b8, b9, b10, b11] =
      some { h with header_flags := { h.header_flags with
        truncation := !h.header_flags.truncation } } ∧
    Header.new [b0, b1, b2 ^^^ 0b00000001, b3, b4, b5, b6, b7, b8, b9, b10, b11] =
      some { h with header_flags := { h.header_flags with
        recursion_desired := !h.header_flags.recursion_desired } } ∧
    Header.new [b0, b1, b2, b3 ^^^ 0b10000000, b4, b5, b6, b7, b8, b9, b10, b11] =
      some { h with header_flags := { h.header_flags with
        recursion_available := !h.header_flags.recursion_available } } := by
  obtain ⟨fa, ft, fr, fv⟩ := flags_bytes_flip b2 b3 hb2 hb3
  rw [new_cons] at hdec
  obtain ⟨f, hf, hmk⟩ := Option.map_eq_some'.mp hdec
  subst hmk
  refine ⟨?_, ?_, ?_, ?_⟩ <;> rw [new_cons]
  · rw [fa, hf]; rfl
  · rw [ft, hf]; rfl
  · rw [fr, hf]; rfl
  · rw [fv, hf]; rfl

/-- Witness for C9: the four single-bit flips applied to the all-zero
buffer. -/
theorem claim_C9_witness :
    Header.new [0, 0, 4, 0, 0, 0, 0, 0, 0, 0, 0, 0] =
      some ⟨0, ⟨QueryOrReply.Query, OpCode.Query, true, false, false, false,
                ResponseCode.NoError⟩, 0, 0, 0, 0⟩ ∧
    Header.new [0, 0, 2, 0, 0, 0, 0, 0, 0, 0, 0, 0] =
      some ⟨0, ⟨QueryOrReply.Query, OpCode.Query, false, true, false, false,
                ResponseCode.NoError⟩, 0, 0, 0, 0⟩ ∧
    Header.new [0, 0, 1, 0, 0, 0, 0, 0, 0, 0, 0, 0] =
      some ⟨0, ⟨QueryOrReply.Query, OpCode.Query, false, false, true, false,
                ResponseCode.NoError⟩, 0, 0, 0, 0⟩ ∧
    Header.new [0, 0, 0, 128, 0, 0, 0, 0, 0, 0, 0, 0] =
      some ⟨0, ⟨QueryOrReply.Query, OpCode.Query, false, false, false, true,
                ResponseCode.NoError⟩, 0, 0, 0, 0⟩ :=
  claim_C9 0 0 0 0 0 0 0 0 0 0 0 0 (by decide) (by decide)
    ⟨0, ⟨QueryOrReply.Query, OpCode.Query, false, false, false, false,
         ResponseCode.NoError⟩, 0, 0, 0, 0⟩ rfl

/-- Claim C10: the query-to-reply transform of the server loop is idempotent:
on every 12-byte buffer that decodes successfully it produces an output that
itself decodes successfully and is a fixed point of the transform. -/
theorem claim_C10 (b0 b1 b2 b3 b4 b5 b6 b7 b8 b9 b10 b11 : Nat)
    (h0 : b0 < 256) (h1 : b1 < 256) (h2 : b2 < 256) (h3 : b3 < 256)
    (h4 : b4 < 256) (h5 : b5 < 256) (h6 : b6 < 256) (h7 : b7 < 256)
    (h8 : b8 < 256) (h9 : b9 < 256) (h10 : b10 < 256) (h11 : b11 < 256)
    (h : Header)
    (hdec : Header.new [b0, b1, b2, b3, b4, b5, b6, b7, b8, b9, b10, b11] =
      some h) :
    ∃ out, serverTransform [b0, b1, b2, b3, b4, b5, b6, b7, b8, b9, b10, b11] =
        some out ∧
      (Header.new out).isSome ∧ serverTransform out = some out := by
  rw [new_cons] at hdec
  obtain ⟨f, hf, hmk⟩ := Option.map_eq_some'.mp hdec
  have c0 : u16_from_be b0 b1 < 65536 := by simp only [u16_from_be]; omega
  have c4 : u16_from_be b4 b5 < 65536 := by simp only [u16_from_be]; omega
  have c6 : u16_from_be b6 b7 < 65536 := by simp only [u16_from_be]; omega
  have c8 : u16_from_be b8 b9 < 65536 := by simp only [u16_from_be]; omega
  have c10 : u16_from_be b10 b11 < 65536 := by simp only [u16_from_be]; omega
  have hd2 := new_to_bytes (u16_from_be b0 b1)
    { f with qr := QueryOrReply.Reply } (u16_from_be b4 b5) (u16_from_be b6 b7)
    (u16_from_be b8 b9) (u16_from_be b10 b11) c0 c4 c6 c8 c10
  refine ⟨Header.to_bytes ⟨u16_from_be b0 b1, { f with qr := QueryOrReply.Reply },
    u16_from_be b4 b5, u16_from_be b6 b7, u16_from_be b8 b9, u16_from_be b10 b11⟩,
    ?_, ?_, ?_⟩
  · rw [serverTransform_twelve, new_cons, hf]
    rfl
  · rw [hd2]
    rfl
  · rw [to_bytes_flat, serverTransform_twelve, ← to_bytes_flat, hd2]
    rfl

/-- Witness for C10 at a concrete query. -/
theorem claim_C10_witness :
    ∃ out, serverTransform [0, 5, 8, 0, 0, 0, 0, 0, 1, 0, 0, 2] = some out ∧
      (Header.new out).isSome ∧ serverTransform out = some out :=
  claim_C10 0 5 8 0 0 0 0 0 1 0 0 2
    (by decide) (by decide) (by decide) (by decide) (by decide) (by decide)
    (by decide) (by decide) (by decide) (by decide) (by decide) (by decide)
    ⟨5, ⟨QueryOrReply.Query, OpCode.IQuery, false, false, false, false,
         ResponseCode.NoError⟩, 0, 0, 256, 2⟩ rfl

end DNS
